import Mathlib

/-!
Verification of the ProtrackII jump data extractor (extract.py).

The development shallowly embeds the numeric core of the script:

* module-level constants (extract.py lines 19-37);
* the barometric atmosphere model (PressureToMeter, line 117-118);
* the parser front end of main (marker validation and field extraction,
  lines 149-223), modelled over the list of input lines;
* the numeric pipeline of main (lines 225-280): ground reference, ICAO
  temperature estimate, altitude and SAS altitude series, deployment index
  detection, windowed speed lists and the acceleration list.

Python floats are modelled as real numbers.  Python round (banker
rounding, used through MsecToMsec) is modelled by pyround, the Python
int cast applied to floats by pytrunc, and the Python in operator on
strings by pyIn.  The out-of-range list access that aborts the script
when the profile holds fewer than IndexExit + 1 samples is modelled by
returning none from extractCore.
-/

set_option maxRecDepth 4000

/-- Python substring test: models the expression needle in hay. -/
def leadsList (needle hay : List Char) : Bool :=
  match needle, hay with
  | [], _ => true
  | _ :: _, [] => false
  | a :: as, b :: bs => (a == b) && leadsList as bs

/-- Python membership test needle in hay for strings. -/
def pyIn (needle hay : String) : Bool :=
  hay.toList.tails.any (fun t => leadsList needle.toList t)

/-- Digit list to the natural number it denotes in decimal. -/
def digitsToNat (l : List Char) : Nat :=
  l.foldl (fun acc c => acc * 10 + (c.toNat - 48)) 0

/-- Models the Python builtin int applied to a string holding a canonical
decimal integer, possibly with a leading minus sign; any other string is
rejected (int raises ValueError there).  The Python tolerance for
surrounding whitespace, a leading plus and underscores is not modelled:
no claim exercises it. -/
def pyInt (s : String) : Option Int :=
  match s.toList with
  | '-' :: rest =>
      if rest ≠ [] ∧ rest.all Char.isDigit then some (-(digitsToNat rest : Int)) else none
  | cs =>
      if cs ≠ [] ∧ cs.all Char.isDigit then some ((digitsToNat cs : Int)) else none

/-- Python str.split on a comma, over the character list. -/
def splitOnComma (l : List Char) : List (List Char) :=
  l.foldr
    (fun c acc =>
      if c = ',' then [] :: acc
      else
        match acc with
        | [] => [[c]]
        | h :: t => (c :: h) :: t)
    [[]]

/-- Python s.split on a comma for strings. -/
def pySplitComma (s : String) : List String :=
  (splitOnComma s.toList).map (fun cs => String.mk cs)

/-- Marker validation of main, extract.py lines 149-162: the input must be
non-empty, line 0 must contain JIB, the last line PIE, line 33 JIE and
line 34 PIB.  Missing lines are treated as empty strings (in the script a
missing line 33 or 34 aborts the run just the same, through IndexError). -/
def checkMarkers (lined : List String) : Bool :=
  !lined.isEmpty && pyIn "JIB" (lined.getD 0 "")
    && pyIn "PIE" (lined.getD (lined.length - 1) "")
    && pyIn "JIE" (lined.getD 33 "")
    && pyIn "PIB" (lined.getD 34 "")

/-- Line numbers that main converts with int (extract.py lines 179-220);
a conversion failure aborts the run before the numeric stages. -/
def headerIntLines : List Nat :=
  [5, 8, 9, 10, 11, 12, 13, 14, 15, 16, 17, 18, 19, 20, 21, 22, 23, 24, 25,
   26, 27, 28, 29, 30, 31, 32, 35, 36, 37, 38]

/-- Lines 6 and 7 are concatenated and fed to datetime.strptime with the
format YYYYMMDDHHMMSS: modelled as fourteen digits (calendar range checks
of strptime are not modelled; no claim exercises them). -/
def dateOk (lined : List String) : Bool :=
  let ds := (lined.getD 6 "") ++ (lined.getD 7 "")
  (ds.length == 14) && ds.toList.all Char.isDigit

/-- The profile section, extract.py lines 221-222: join lines 39 to the
second-to-last, split on commas, and drop the trailing empty token. -/
def JumpDataStrings (lined : List String) : List String :=
  (pySplitComma (String.join ((lined.take (lined.length - 1)).drop 39))).dropLast

/-- The fields of the parsed file that the numeric pipeline consumes. -/
structure ParsedRecord where
  DeploymentAltitude : Int
  GroundLeveldPa : Int
  profilePoints : Int
  JumpDataInt : List Int
deriving DecidableEq

/-- Front end of main, extract.py lines 149-223: marker validation, strict
integer conversion of the fixed-offset header fields, and decoding of the
comma-separated profile section.  Returns none when the script would have
aborted before the numeric stages. -/
def parseFile (lined : List String) : Option ParsedRecord :=
  if checkMarkers lined
      && (headerIntLines.all fun j => (pyInt (lined.getD j "")).isSome)
      && dateOk lined then
    match pyInt (lined.getD 9 ""), pyInt (lined.getD 35 ""),
        pyInt (lined.getD 38 ""), (JumpDataStrings lined).mapM pyInt with
    | some dep, some g, some pts, some jdi => some ⟨dep, g, pts, jdi⟩
    | _, _, _, _ => none
  else none

noncomputable section

/-- extract.py line 19. -/
def TimeStep : ℝ := 0.25

/-- extract.py line 20. -/
def TimeInitial : ℝ := -2.0

/-- extract.py line 22. -/
def TimeIncForSpeedInFF : ℝ := 6.0

/-- extract.py line 23. -/
def TimeIncForSpeedCanopy : ℝ := 3.0

/-- extract.py line 24: (int)((0.0 - TimeInitial) / TimeStep) = (int)(8.0). -/
def IndexExit : Nat := 8

/-- extract.py line 25. -/
def IndexIncForSpeedInFF : Nat := 24

/-- extract.py line 26. -/
def IndexIncForSpeedCanopy : Nat := 12

/-- extract.py line 27. -/
def A_GRAVITY : ℝ := 9.80665

/-- extract.py line 29. -/
def SL_PRESSURE_DPA : ℝ := 10132.5

/-- extract.py line 30. -/
def BARO_POWER : ℝ := 0.190263

/-- extract.py line 31. -/
def STANDARD_TEMP_k : ℝ := 44330.8

/-- Python round on a float: round half to even (banker rounding); the
Mathlib round rounds halves up, so ties are handled explicitly. -/
def pyround (x : ℝ) : ℤ :=
  if Int.fract x = 1 / 2 then (if Even ⌊x⌋ then ⌊x⌋ else ⌊x⌋ + 1) else round x

/-- Python (int) cast applied to a float: truncation toward zero. -/
def pytrunc (x : ℝ) : ℤ :=
  if 0 ≤ x then ⌊x⌋ else ⌈x⌉

/-- extract.py lines 117-118. -/
def PressureToMeter (p GroundLevelMeter : ℝ) : ℝ :=
  STANDARD_TEMP_k * (1.0 - (p / SL_PRESSURE_DPA) ^ BARO_POWER) - GroundLevelMeter

/-- extract.py lines 114-115. -/
def MsecToMsec (m : ℝ) : ℤ := pyround m

/-- extract.py lines 244-246: the altitude series is the pressure series
mapped through PressureToMeter against the ground reference. -/
def AltiMeterListOf (JumpDataInt : List Int) (GroundLevelMeter : ℝ) : List ℝ :=
  JumpDataInt.map (fun (readingDBar : Int) => PressureToMeter (readingDBar : ℝ) GroundLevelMeter)

/-- extract.py lines 248-250: the SAS altitude series, one entry per
pressure sample. -/
def SasMeterListOf (JumpDataInt : List Int) (icao_div : ℤ) (hs ht GroundLevelMeter : ℝ) :
    List ℝ :=
  JumpDataInt.map (fun (readingDBar : Int) =>
    STANDARD_TEMP_k * (1 - ((readingDBar : ℝ) / SL_PRESSURE_DPA) ^ BARO_POWER)
        * (1 + (icao_div : ℝ) * 0.004)
      + (hs - ht) + GroundLevelMeter)

/-- extract.py lines 252-256, the deployment detection threaded through the
reconstruction loop: DeploymentIndex is the loop state, i the loop counter. -/
def deployLoop (DeploymentAltitude : ℝ) : List ℝ → ℤ → Nat → ℤ
  | [], DeploymentIndex, _ => DeploymentIndex
  | alti :: rest, DeploymentIndex, i =>
      deployLoop DeploymentAltitude rest
        (if alti ≤ DeploymentAltitude ∧ DeploymentIndex = -1 then (i : ℤ) else DeploymentIndex)
        (i + 1)

/-- The deployment index produced by the reconstruction loop of main,
starting from the sentinel -1 (extract.py lines 171 and 252-256). -/
def DeploymentIndexOf (AltiMeterList : List ℝ) (DeploymentAltitude : ℝ) : ℤ :=
  deployLoop DeploymentAltitude AltiMeterList (-1) 0

/-- extract.py lines 261-266: the index increment (window size) selected at
index i of the speed loop; out-of-range reads yield 0, which the loop never
performs. -/
def idxincAt (AltiMeterList : List ℝ) (DeploymentAltitude : ℝ) (i : Nat) : Nat :=
  if AltiMeterList.getD i 0 > DeploymentAltitude then IndexIncForSpeedInFF
  else IndexIncForSpeedCanopy

/-- extract.py lines 261-266: the time interval selected at index i of the
speed loop. -/
def timeintervalAt (AltiMeterList : List ℝ) (DeploymentAltitude : ℝ) (i : Nat) : ℝ :=
  if AltiMeterList.getD i 0 > DeploymentAltitude then TimeIncForSpeedInFF
  else TimeIncForSpeedCanopy

/-- One finite-difference term of the speed loop (extract.py lines 269 and
273): the window is chosen from AltiMeterList, the difference is taken over
diffList (AltiMeterList for TAS, SasMeterList for SAS). -/
def speedAt (AltiMeterList diffList : List ℝ) (DeploymentAltitude : ℝ) (i : Nat) : ℝ :=
  (diffList.getD (i - idxincAt AltiMeterList DeploymentAltitude i) 0 - diffList.getD i 0)
    / timeintervalAt AltiMeterList DeploymentAltitude i

/-- extract.py lines 260-270: SpeedList, one entry per loop index i in
range(IndexExit + IndexIncForSpeedInFF, len(AltiMeterList)). -/
def SpeedListOf (AltiMeterList : List ℝ) (DeploymentAltitude : ℝ) : List ℝ :=
  (List.range' (IndexExit + IndexIncForSpeedInFF)
      (AltiMeterList.length - (IndexExit + IndexIncForSpeedInFF))).map
    (speedAt AltiMeterList AltiMeterList DeploymentAltitude)

/-- extract.py lines 260-274: SasSpeedList, built in the same loop with the
same window but differencing SasMeterList. -/
def SasSpeedListOf (AltiMeterList SasMeterList : List ℝ) (DeploymentAltitude : ℝ) : List ℝ :=
  (List.range' (IndexExit + IndexIncForSpeedInFF)
      (AltiMeterList.length - (IndexExit + IndexIncForSpeedInFF))).map
    (speedAt AltiMeterList SasMeterList DeploymentAltitude)

/-- extract.py lines 277-280: AccelList, one entry per index i in
range(1, len(SpeedList)), with both speeds rounded through MsecToMsec. -/
def AccelListOf (SpeedList : List ℝ) : List ℝ :=
  (List.range' 1 (SpeedList.length - 1)).map (fun i =>
    ((MsecToMsec (SpeedList.getD i 0) : ℝ) - (MsecToMsec (SpeedList.getD (i - 1) 0) : ℝ))
      / TimeStep / A_GRAVITY)

/-- The values produced by the numeric pipeline of main. -/
structure ExtractResult where
  GroundLevelMeter : ℤ
  exit_dbar : ℤ
  IcaoTempC : ℤ
  hs : ℝ
  ht : ℝ
  AltiMeterList : List ℝ
  SasMeterList : List ℝ
  DeploymentIndex : ℤ
  SpeedList : List ℝ
  SasSpeedList : List ℝ
  AccelList : List ℝ

/-- Numeric pipeline of main, extract.py lines 225-280, starting from the
parsed profile samples, ground pressure and deployment altitude.  The read
of JumpDataInt[IndexExit] on line 227 aborts the script with IndexError
when the profile holds at most IndexExit samples: that abort, which happens
before any series is built, is modelled by none. -/
def extractCore (JumpDataInt : List Int) (GroundLeveldPa DeploymentAltitude : Int) :
    Option ExtractResult :=
  if IndexExit < JumpDataInt.length then
    let GroundLevelMeter : ℤ :=
      pytrunc (STANDARD_TEMP_k * (1.0 - ((GroundLeveldPa : ℝ) / SL_PRESSURE_DPA) ^ BARO_POWER))
    let exit_dbar : ℤ := JumpDataInt.getD IndexExit 0
    let IcaoTempC : ℤ :=
      pyround (15 - (STANDARD_TEMP_k
        * (1 - ((exit_dbar : ℝ) / SL_PRESSURE_DPA) ^ BARO_POWER)) * 0.0065)
    let icao_div : ℤ := IcaoTempC
    let hs : ℝ := STANDARD_TEMP_k * (1 - ((GroundLeveldPa : ℝ) / SL_PRESSURE_DPA) ^ BARO_POWER)
    let ht : ℝ :=
      (STANDARD_TEMP_k * (1 - ((GroundLeveldPa : ℝ) / SL_PRESSURE_DPA) ^ BARO_POWER))
        * (1 + (icao_div : ℝ) * 0.004)
    let AltiMeterList := AltiMeterListOf JumpDataInt (GroundLevelMeter : ℝ)
    let SasMeterList := SasMeterListOf JumpDataInt icao_div hs ht (GroundLevelMeter : ℝ)
    let DeploymentIndex := DeploymentIndexOf AltiMeterList (DeploymentAltitude : ℝ)
    let SpeedList := SpeedListOf AltiMeterList (DeploymentAltitude : ℝ)
    let SasSpeedList := SasSpeedListOf AltiMeterList SasMeterList (DeploymentAltitude : ℝ)
    let AccelList := AccelListOf SpeedList
    some ⟨GroundLevelMeter, exit_dbar, IcaoTempC, hs, ht, AltiMeterList, SasMeterList,
      DeploymentIndex, SpeedList, SasSpeedList, AccelList⟩
  else none

end

/-- A synthetic 41-line input in the layout of section 6 of the spec, with
ten profile samples; the ground pressure line (35) and the declared point
count line (38) are the two parameters. -/
def exInputLines (gline ptsline : String) : List String :=
  ["JIB", "1.00", "1", "1.00", "123456789012", "7",
   "20240101", "120000",
   "4000", "1000", "60",
   "50", "60", "40", "55", "45",
   "50", "60", "40", "55", "45",
   "150", "1",
   "0", "0", "0", "0", "0",
   "0", "0", "0", "0", "0",
   "JIE", "PIB",
   gline, "1", "0", ptsline,
   "9000,9001,9002,9003,9004,9005,9006,9007,9008,9009,",
   "PIE"]

/-- Input whose profile section decodes to ten samples while line 38
declares five points. -/
def exLined4 : List String := exInputLines "10000" "5"

/-- The record parsed from exLined4. -/
def exRecord4 : ParsedRecord :=
  ⟨1000, 10000, 5, [9000, 9001, 9002, 9003, 9004, 9005, 9006, 9007, 9008, 9009]⟩

/-- Consistent input whose ground pressure line reads 9000 deca-Pascals. -/
def exLined7 : List String := exInputLines "9000" "10"

/-- The record parsed from exLined7. -/
def exRecord7 : ParsedRecord :=
  ⟨1000, 9000, 10, [9000, 9001, 9002, 9003, 9004, 9005, 9006, 9007, 9008, 9009]⟩

/-- Fully consistent input: ten declared points, ten samples. -/
def exLined8 : List String := exInputLines "10000" "10"

/-- Lengths of the two altitude series produced by the pipeline, when it
runs. -/
noncomputable def coreLengths (JumpDataInt : List Int) (GroundLeveldPa DeploymentAltitude : Int) :
    Option (Nat × Nat) :=
  (extractCore JumpDataInt GroundLeveldPa DeploymentAltitude).map
    (fun r => (r.AltiMeterList.length, r.SasMeterList.length))

/-- Sanity: the exit index encodes the instant t = 0 of the sampling grid,
as computed on extract.py line 24. -/
theorem IndexExit_spec : (IndexExit : ℝ) = (0.0 - TimeInitial) / TimeStep := by
  norm_num [IndexExit, TimeInitial, TimeStep]

/-- Reading an entry of a mapped index range: entry k corresponds to loop
index s + k. -/
theorem getD_map_range' (f : Nat → ℝ) (s n k : Nat) (hk : k < n) :
    ((List.range' s n).map f).getD k 0 = f (s + k) := by
  have hlen : k < ((List.range' s n).map f).length := by simpa using hk
  rw [List.getD_eq_getElem?_getD, List.getElem?_eq_getElem hlen]
  simp [List.getElem_range'_1]

/-- Once the deployment index is set to a value other than the sentinel, the
loop never overwrites it. -/
theorem deployLoop_ne (dep : ℝ) (l : List ℝ) (d : ℤ) (i : Nat) (hd : d ≠ -1) :
    deployLoop dep l d i = d := by
  induction l generalizing i with
  | nil => rfl
  | cons a rest ih =>
      have hcond : ¬(a ≤ dep ∧ d = -1) := fun h => hd h.2
      simp only [deployLoop, if_neg hcond]
      exact ih (i + 1)

/-- When no sample crosses the threshold, the loop returns its sentinel. -/
theorem deployLoop_none (dep : ℝ) (l : List ℝ) (i : Nat)
    (h : ∀ k, k < l.length → dep < l.getD k 0) : deployLoop dep l (-1) i = -1 := by
  induction l generalizing i with
  | nil => rfl
  | cons a rest ih =>
      have ha : dep < a := by simpa using h 0 (Nat.succ_pos _)
      have hcond : ¬(a ≤ dep ∧ True) := fun hc => absurd hc.1 (not_le.mpr ha)
      simp only [deployLoop]
      rw [if_neg hcond]
      exact ih (i + 1) (fun k hk => by simpa using h (k + 1) (Nat.succ_lt_succ hk))

/-- The loop stops at the first crossing: if position j (relative to the
rest of the list) is the first sample at or below the threshold, the loop
started at counter i returns i + j. -/
theorem deployLoop_find (dep : ℝ) (l : List ℝ) (i j : Nat) (hj : j < l.length)
    (hcross : l.getD j 0 ≤ dep) (hmin : ∀ k, k < j → dep < l.getD k 0) :
    deployLoop dep l (-1) i = ((i + j : Nat) : ℤ) := by
  induction l generalizing i j with
  | nil => exact absurd hj (Nat.not_lt_zero _)
  | cons a rest ih =>
      cases j with
      | zero =>
          have ha : a ≤ dep := by simpa using hcross
          have hcond : (a ≤ dep ∧ True) := ⟨ha, trivial⟩
          simp only [deployLoop]
          rw [if_pos hcond, deployLoop_ne dep rest (i : ℤ) (i + 1) (by omega)]
          simp
      | succ j' =>
          have ha : dep < a := by simpa using hmin 0 (Nat.succ_pos _)
          have hcond : ¬(a ≤ dep ∧ True) := fun hc => absurd hc.1 (not_le.mpr ha)
          simp only [deployLoop]
          rw [if_neg hcond]
          have := ih (i + 1) j' (by simpa using Nat.lt_of_succ_lt_succ hj)
            (by simpa using hcross)
            (fun k hk => by simpa using hmin (k + 1) (Nat.succ_lt_succ hk))
          rw [this]
          congr 1
          omega

/-- Claim C1: for every altitude series fed to the reconstruction loop, the
deployment index is the smallest index whose altitude is at or below the
deployment altitude (once set it is never overwritten), and it is the
sentinel -1 exactly when no index satisfies the crossing condition; in
particular no earlier index satisfies it. -/
theorem deploymentIndex_first_crossing (altis : List ℝ) (dep : ℝ) :
    (DeploymentIndexOf altis dep = -1 ↔ ∀ i, i < altis.length → dep < altis.getD i 0) ∧
    (∀ j, j < altis.length → altis.getD j 0 ≤ dep →
      (∀ k, k < j → dep < altis.getD k 0) → DeploymentIndexOf altis dep = (j : ℤ)) := by
  constructor
  · constructor
    · intro hnone
      by_contra hex
      push_neg at hex
      obtain ⟨i0, hi0, hle⟩ := hex
      classical
      have hP : ∃ n, n < altis.length ∧ altis.getD n 0 ≤ dep := ⟨i0, hi0, hle⟩
      have hj := Nat.find_spec hP
      have hmin : ∀ k, k < Nat.find hP → dep < altis.getD k 0 := by
        intro k hk
        have hnotk := Nat.find_min hP hk
        by_contra hnot
        rw [not_lt] at hnot
        exact hnotk ⟨Nat.lt_trans hk hj.1, hnot⟩
      have hfind := deployLoop_find dep altis 0 (Nat.find hP) hj.1 hj.2 hmin
      unfold DeploymentIndexOf at hnone
      rw [hnone] at hfind
      omega
    · intro hall
      exact deployLoop_none dep altis 0 hall
  · intro j hj hcross hmin
    simpa [DeploymentIndexOf] using deployLoop_find dep altis 0 j hj hcross hmin

/-- Witness for claim C1: in the series [5, 2, 1] with deployment altitude
2, index 1 is the first crossing and the loop returns 1. -/
theorem deploymentIndex_first_crossing_witness :
    ((1 : Nat) < ([5, 2, 1] : List ℝ).length ∧ ([5, 2, 1] : List ℝ).getD 1 0 ≤ (2 : ℝ) ∧
      (∀ k, k < 1 → (2 : ℝ) < ([5, 2, 1] : List ℝ).getD k 0)) ∧
    DeploymentIndexOf [5, 2, 1] 2 = 1 := by
  have h1 : (1 : Nat) < ([5, 2, 1] : List ℝ).length := by norm_num
  have h2 : ([5, 2, 1] : List ℝ).getD 1 0 ≤ (2 : ℝ) := by norm_num
  have h3 : ∀ k, k < 1 → (2 : ℝ) < ([5, 2, 1] : List ℝ).getD k 0 := by
    intro k hk
    interval_cases k
    norm_num
  exact ⟨⟨h1, h2, h3⟩, (deploymentIndex_first_crossing [5, 2, 1] 2).2 1 h1 h2 h3⟩

/-- Claim C2: speeds are computed exactly for loop indices i from
IndexExit + IndexIncForSpeedInFF = 32 up to the last altitude index, and at
each such i the window is re-evaluated from the current sample: above the
deployment altitude the 24-sample window over 6.0 s is used, otherwise the
12-sample window over 3.0 s; the SAS speed differences SasMeterList under
the identical per-index window choice, which depends only on the current
altitude versus the deployment altitude (so it toggles on re-crossings). -/
theorem speed_window_per_index (altis sas : List ℝ) (dep : ℝ) :
    (SpeedListOf altis dep).length = altis.length - (IndexExit + IndexIncForSpeedInFF) ∧
    (SasSpeedListOf altis sas dep).length = altis.length - (IndexExit + IndexIncForSpeedInFF) ∧
    (∀ i, IndexExit + IndexIncForSpeedInFF ≤ i → i < altis.length →
      ((SpeedListOf altis dep).getD (i - (IndexExit + IndexIncForSpeedInFF)) 0 =
        if altis.getD i 0 > dep
        then (altis.getD (i - 24) 0 - altis.getD i 0) / 6.0
        else (altis.getD (i - 12) 0 - altis.getD i 0) / 3.0) ∧
      ((SasSpeedListOf altis sas dep).getD (i - (IndexExit + IndexIncForSpeedInFF)) 0 =
        if altis.getD i 0 > dep
        then (sas.getD (i - 24) 0 - sas.getD i 0) / 6.0
        else (sas.getD (i - 12) 0 - sas.getD i 0) / 3.0)) := by
  refine ⟨by simp [SpeedListOf], by simp [SasSpeedListOf], ?_⟩
  intro i h1 h2
  have hk : i - (IndexExit + IndexIncForSpeedInFF)
      < altis.length - (IndexExit + IndexIncForSpeedInFF) := by omega
  have hi : (IndexExit + IndexIncForSpeedInFF) + (i - (IndexExit + IndexIncForSpeedInFF)) = i := by
    omega
  constructor
  · simp only [SpeedListOf]
    rw [getD_map_range' _ _ _ _ hk, hi]
    simp only [speedAt, idxincAt, timeintervalAt, IndexIncForSpeedInFF, IndexIncForSpeedCanopy,
      TimeIncForSpeedInFF, TimeIncForSpeedCanopy]
    split_ifs <;> rfl
  · simp only [SasSpeedListOf]
    rw [getD_map_range' _ _ _ _ hk, hi]
    simp only [speedAt, idxincAt, timeintervalAt, IndexIncForSpeedInFF, IndexIncForSpeedCanopy,
      TimeIncForSpeedInFF, TimeIncForSpeedCanopy]
    split_ifs <;> rfl

/-- Witness for claim C2: a 33-sample flat series at altitude 0 with
deployment altitude 1; index 32 is in range, selects the canopy window, and
the single speed entry evaluates to 0. -/
theorem speed_window_per_index_witness :
    (IndexExit + IndexIncForSpeedInFF ≤ 32 ∧ 32 < (List.replicate 33 (0 : ℝ)).length) ∧
    (SpeedListOf (List.replicate 33 (0 : ℝ)) 1).getD 0 0 = 0 := by
  have h1 : IndexExit + IndexIncForSpeedInFF ≤ 32 := by
    norm_num [IndexExit, IndexIncForSpeedInFF]
  have h2 : 32 < (List.replicate 33 (0 : ℝ)).length := by simp
  have h := ((speed_window_per_index (List.replicate 33 (0 : ℝ))
    (List.replicate 33 (0 : ℝ)) 1).2.2 32 h1 h2).1
  refine ⟨⟨h1, h2⟩, ?_⟩
  have h32 : (32 : Nat) - (IndexExit + IndexIncForSpeedInFF) = 0 := by
    norm_num [IndexExit, IndexIncForSpeedInFF]
  rw [h32] at h
  rw [h]
  simp [List.getD_eq_getElem?_getD, List.getElem?_replicate]

/-- Python round of 0 is 0. -/
theorem pyround_zero : pyround (0 : ℝ) = 0 := by
  rw [pyround, if_neg, round_zero]
  rw [Int.fract_zero]
  norm_num

/-- Python round of one third is 0. -/
theorem pyround_third : pyround (1 / 3 : ℝ) = 0 := by
  have hf : ⌊(1 / 3 : ℝ)⌋ = 0 := by
    rw [Int.floor_eq_iff]
    norm_num
  have hfr : Int.fract (1 / 3 : ℝ) = 1 / 3 := by
    unfold Int.fract
    rw [hf]
    norm_num
  have hr : round (1 / 3 : ℝ) = 0 := by
    rw [round_eq, show (1 / 3 : ℝ) + 1 / 2 = 5 / 6 by norm_num, Int.floor_eq_iff]
    norm_num
  rw [pyround, hfr]
  norm_num [hr]

/-- Claim C3 as the code computes it: the acceleration paired with speed
index i (entry i - 1 of AccelList) is the difference of the MsecToMsec
roundings of the two speeds, divided by 0.25 and by 9.80665. -/
theorem accel_rounded_difference (speeds : List ℝ) (i : Nat) (h1 : 1 ≤ i)
    (h2 : i < speeds.length) :
    (AccelListOf speeds).getD (i - 1) 0 =
      ((MsecToMsec (speeds.getD i 0) : ℝ) - (MsecToMsec (speeds.getD (i - 1) 0) : ℝ))
        / 0.25 / 9.80665 := by
  have hk : i - 1 < speeds.length - 1 := by omega
  have hi : 1 + (i - 1) = i := by omega
  simp only [AccelListOf]
  rw [getD_map_range' _ _ _ _ hk, hi]
  simp only [TimeStep, A_GRAVITY]

/-- Witness for claim C3: the speed list [0, 1/3] at speed index 1. -/
theorem accel_rounded_difference_witness :
    ((1 : Nat) ≤ 1 ∧ 1 < ([0, 1 / 3] : List ℝ).length) ∧
    (AccelListOf [0, 1 / 3] : List ℝ).getD 0 0 =
      ((MsecToMsec (([0, 1 / 3] : List ℝ).getD 1 0) : ℝ)
        - (MsecToMsec (([0, 1 / 3] : List ℝ).getD 0 0) : ℝ)) / 0.25 / 9.80665 := by
  have h1 : (1 : Nat) ≤ 1 := le_refl 1
  have h2 : 1 < ([0, 1 / 3] : List ℝ).length := by norm_num
  exact ⟨⟨h1, h2⟩, accel_rounded_difference [0, 1 / 3] 1 h1 h2⟩

/-- Counterexample to claim C3 as stated: for the speed series [0, 1/3] the
code yields acceleration 0 at speed index 1, because both speeds are rounded
through MsecToMsec before differencing, while the unrounded finite
difference (speed[1] - speed[0]) / 0.25 / 9.80665 is not 0. -/
theorem accel_unrounded_formula_cx :
    (AccelListOf [0, 1 / 3] : List ℝ).getD 0 0 = 0 ∧
    (((1 / 3 : ℝ) - 0) / 0.25 / 9.80665) ≠ 0 ∧
    ([0, 1 / 3] : List ℝ).getD 1 0 = 1 / 3 ∧ ([0, 1 / 3] : List ℝ).getD 0 0 = 0 := by
  refine ⟨?_, by norm_num, by norm_num, by norm_num⟩
  have h0 : (AccelListOf [0, 1 / 3] : List ℝ).getD 0 0 =
      ((MsecToMsec (([0, 1 / 3] : List ℝ).getD (1 + 0) 0) : ℝ)
        - (MsecToMsec (([0, 1 / 3] : List ℝ).getD (1 + 0 - 1) 0) : ℝ))
        / TimeStep / A_GRAVITY := by
    simp only [AccelListOf]
    rw [getD_map_range' _ 1 (([0, 1 / 3] : List ℝ).length - 1) 0 (by norm_num)]
  rw [h0]
  norm_num [MsecToMsec, pyround_third, pyround_zero, TimeStep, A_GRAVITY]

/-- Claim C9: at every iteration of the speed loop (i at least
IndexExit + IndexIncForSpeedInFF = 32), the selected window is 24 or 12 and
the lookback index i - window stays at or above IndexExit = 8, so it is
never negative and the finite differences never read before the start of
the series. -/
theorem lookback_in_bounds (altis : List ℝ) (dep : ℝ) (i : Nat)
    (h : IndexExit + IndexIncForSpeedInFF ≤ i) :
    (IndexExit : ℤ) ≤ (i : ℤ) - (idxincAt altis dep i : ℤ) ∧
    (idxincAt altis dep i = IndexIncForSpeedInFF
      ∨ idxincAt altis dep i = IndexIncForSpeedCanopy) := by
  unfold idxincAt
  split_ifs with hcond
  · refine ⟨?_, Or.inl rfl⟩
    simp only [IndexExit, IndexIncForSpeedInFF] at *
    omega
  · refine ⟨?_, Or.inr rfl⟩
    simp only [IndexExit, IndexIncForSpeedInFF, IndexIncForSpeedCanopy] at *
    omega

/-- Witness for claim C9 at loop index 32 on an empty series. -/
theorem lookback_in_bounds_witness :
    (IndexExit + IndexIncForSpeedInFF ≤ 32) ∧
    ((IndexExit : ℤ) ≤ (32 : ℤ) - (idxincAt [] 0 32 : ℤ) ∧
      (idxincAt [] 0 32 = IndexIncForSpeedInFF
        ∨ idxincAt [] 0 32 = IndexIncForSpeedCanopy)) := by
  have h : IndexExit + IndexIncForSpeedInFF ≤ 32 := by
    norm_num [IndexExit, IndexIncForSpeedInFF]
  exact ⟨h, lookback_in_bounds [] 0 32 h⟩

/-- Claim C10: the exit-index sample JumpDataInt[IndexExit] with
IndexExit = 8 is read before any series is built; the pipeline runs exactly
when the profile decodes to at least 9 samples, and with fewer samples it
aborts at this lookup producing nothing. -/
theorem exit_sample_bounds (J : List Int) (g d : Int) :
    IndexExit = 8 ∧
    (extractCore J g d = none ↔ J.length < 9) ∧
    ((extractCore J g d).map (fun r => r.exit_dbar) =
      if IndexExit < J.length then some (J.getD IndexExit 0) else none) := by
  refine ⟨rfl, ?_, ?_⟩
  · constructor
    · intro hnone
      by_cases h : IndexExit < J.length
      · unfold extractCore at hnone
        rw [if_pos h] at hnone
        exact absurd hnone (by simp)
      · simp only [IndexExit] at h
        omega
    · intro hlen
      unfold extractCore
      rw [if_neg]
      simp only [IndexExit]
      omega
  · unfold extractCore
    split_ifs with h
    · simp
    · simp

/-- The altitude series has one entry per pressure sample. -/
theorem length_AltiMeterListOf (J : List Int) (glm : ℝ) :
    (AltiMeterListOf J glm).length = J.length := by
  unfold AltiMeterListOf
  exact List.length_map _ _

/-- The SAS altitude series has one entry per pressure sample. -/
theorem length_SasMeterListOf (J : List Int) (icao : ℤ) (hs ht glm : ℝ) :
    (SasMeterListOf J icao hs ht glm).length = J.length := by
  unfold SasMeterListOf
  exact List.length_map _ _

/-- Claim C4 as the code computes it: whenever the pipeline runs, the
altitude series and the SAS altitude series both have exactly one entry per
decoded pressure sample (the declared point count plays no role). -/
theorem series_lengths_eq_sample_count (J : List Int) (g d : Int) :
    (extractCore J g d).map (fun r => (r.AltiMeterList.length, r.SasMeterList.length)) =
    (extractCore J g d).map (fun _ => (J.length, J.length)) := by
  unfold extractCore
  split_ifs with h
  · simp only [Option.map_some', length_AltiMeterListOf, length_SasMeterListOf]
  · rfl

/-- Claim C6: PressureToMeter is exactly the barometric formula
44330.8 * (1 - (reading / 10132.5) ^ 0.190263) - groundLevelMeters, with
those constants. -/
theorem pressureToMeter_formula (p g : ℝ) :
    PressureToMeter p g = 44330.8 * (1 - (p / 10132.5) ^ (0.190263 : ℝ)) - g := by
  unfold PressureToMeter
  norm_num [STANDARD_TEMP_k, SL_PRESSURE_DPA, BARO_POWER]

/-- Claim C7 as it holds on the code: the atmosphere model is
self-consistent against its own ground reference: evaluating the formula at
the ground pressure, relative to the reference altitude the same formula
assigns to that pressure, gives exactly zero. -/
theorem ground_roundtrip_reference_zero (g : ℝ) :
    PressureToMeter g (PressureToMeter g 0) = 0 := by
  unfold PressureToMeter
  ring

/-- Claim C5: whenever the pipeline runs, the ICAO exit-temperature estimate
is round(15 - rawAltitudeAtExit * 0.0065) with rawAltitudeAtExit the
barometric altitude (ground reference 0) of the exit-index sample, and every
SAS altitude entry is the barometric altitude of its sample scaled by
(1 + icaoTempC * 0.004), plus the constant offset hs - ht computed once from
the ground pressure under the uncorrected and corrected formulas, plus the
ground-level reference altitude. -/
theorem sas_altitude_formula (J : List Int) (g d : Int) :
    (extractCore J g d).map (fun r => (r.IcaoTempC, r.SasMeterList)) =
    (if IndexExit < J.length then
      some (pyround (15 - PressureToMeter ((J.getD IndexExit 0 : ℤ) : ℝ) 0 * 0.0065),
        J.map (fun (p : Int) =>
          PressureToMeter (p : ℝ) 0
              * (1 + ((pyround (15 - PressureToMeter ((J.getD IndexExit 0 : ℤ) : ℝ) 0
                  * 0.0065) : ℤ) : ℝ) * 0.004)
            + (PressureToMeter ((g : ℤ) : ℝ) 0
                - PressureToMeter ((g : ℤ) : ℝ) 0
                  * (1 + ((pyround (15 - PressureToMeter ((J.getD IndexExit 0 : ℤ) : ℝ) 0
                      * 0.0065) : ℤ) : ℝ) * 0.004))
            + ((pytrunc (PressureToMeter ((g : ℤ) : ℝ) 0) : ℤ) : ℝ)))
    else none) := by
  have hP : ∀ x : ℝ, PressureToMeter x 0
      = STANDARD_TEMP_k * (1 - (x / SL_PRESSURE_DPA) ^ BARO_POWER) := by
    intro x
    unfold PressureToMeter
    norm_num
  unfold extractCore
  split_ifs with h
  · simp only [Option.map_some', hP, Option.some.injEq, Prod.mk.injEq]
    refine ⟨trivial, ?_⟩
    unfold SasMeterListOf
    apply List.map_congr_left
    intro p hp
    norm_num
  · rfl

/-- Counterexample to claim C7 as stated: exLined7 is accepted by the parser
and carries ground pressure 9000 deca-Pascals, yet the barometric formula
evaluated at that ground pressure with reference 0 exceeds 1 meter (it is
the ground elevation above sea level, about 990 m), so it is not 0 within
any relative tolerance. -/
theorem ground_roundtrip_zero_cx :
    parseFile exLined7 = some exRecord7 ∧
    exRecord7.GroundLeveldPa = 9000 ∧
    1 < PressureToMeter (9000 : ℝ) 0 ∧
    PressureToMeter (9000 : ℝ) 0 ≠ 0 := by
  have hx0 : (0 : ℝ) < 9000 / 10132.5 := by norm_num
  have step1 : (9000 / 10132.5 : ℝ) ^ (0.190263 : ℝ)
      ≤ (9000 / 10132.5 : ℝ) ^ (((8 : ℕ) : ℝ))⁻¹ :=
    Real.rpow_le_rpow_of_exponent_ge hx0 (by norm_num) (by norm_num)
  have hy : (9000 / 10132.5 : ℝ) ≤ (0.9999 : ℝ) ^ (8 : ℕ) := by norm_num
  have step2 : (9000 / 10132.5 : ℝ) ^ (((8 : ℕ) : ℝ))⁻¹
      ≤ ((0.9999 : ℝ) ^ (8 : ℕ)) ^ (((8 : ℕ) : ℝ))⁻¹ :=
    Real.rpow_le_rpow (le_of_lt hx0) hy (by positivity)
  have step3 : ((0.9999 : ℝ) ^ (8 : ℕ)) ^ (((8 : ℕ) : ℝ))⁻¹ = 0.9999 := by
    rw [← Real.rpow_natCast (0.9999 : ℝ) 8, ← Real.rpow_mul (by norm_num)]
    rw [show (((8 : ℕ) : ℝ)) * (((8 : ℕ) : ℝ))⁻¹ = 1 by norm_num, Real.rpow_one]
  have hbound : (9000 / 10132.5 : ℝ) ^ (0.190263 : ℝ) ≤ 0.9999 :=
    le_trans step1 (step2.trans_eq step3)
  have hval : PressureToMeter (9000 : ℝ) 0
      = 44330.8 * (1 - (9000 / 10132.5 : ℝ) ^ (0.190263 : ℝ)) := by
    unfold PressureToMeter
    norm_num [STANDARD_TEMP_k, SL_PRESSURE_DPA, BARO_POWER]
  have h1lt : 1 < PressureToMeter (9000 : ℝ) 0 := by
    rw [hval]
    nlinarith [hbound]
  exact ⟨by decide, rfl, h1lt, ne_of_gt (lt_trans zero_lt_one h1lt)⟩

/-- Claim C8: the run reaches the numeric stages only when the input is
non-empty, line 0 contains JIB, the last line contains PIE, line 33 contains
JIE and line 34 contains PIB; contrapositively, when any marker check fails
the run produces nothing (no numeric stage, no output). -/
theorem marker_validation_gate (lined : List String) (h : parseFile lined ≠ none) :
    checkMarkers lined = true ∧ lined ≠ [] ∧
    pyIn "JIB" (lined.getD 0 "") = true ∧
    pyIn "PIE" (lined.getD (lined.length - 1) "") = true ∧
    pyIn "JIE" (lined.getD 33 "") = true ∧
    pyIn "PIB" (lined.getD 34 "") = true := by
  have hc : checkMarkers lined = true := by
    cases hb : checkMarkers lined with
    | false =>
        exfalso
        apply h
        unfold parseFile
        rw [hb]
        simp
    | true => rfl
  have hc' := hc
  simp only [checkMarkers, Bool.and_eq_true] at hc'
  obtain ⟨⟨⟨⟨hne, hjib⟩, hpie⟩, hjie⟩, hpib⟩ := hc'
  have hnil : lined ≠ [] := by
    intro he
    rw [he] at hne
    simp at hne
  exact ⟨hc, hnil, hjib, hpie, hjie, hpib⟩

/-- Witness for claim C8: exLined8 passes the gate, so every marker
condition holds of it. -/
theorem marker_validation_gate_witness :
    parseFile exLined8 ≠ none ∧
    (checkMarkers exLined8 = true ∧ exLined8 ≠ [] ∧
      pyIn "JIB" (exLined8.getD 0 "") = true ∧
      pyIn "PIE" (exLined8.getD (exLined8.length - 1) "") = true ∧
      pyIn "JIE" (exLined8.getD 33 "") = true ∧
      pyIn "PIB" (exLined8.getD 34 "") = true) := by
  have h : parseFile exLined8 ≠ none := by decide
  exact ⟨h, marker_validation_gate exLined8 h⟩

/-- Counterexample to claim C4 as stated: exLined4 declares five profile
points on line 38 but its profile section decodes to ten samples; the
parser still accepts it and the pipeline still runs, producing altitude and
SAS series of length ten, not the declared five. -/
theorem series_length_declared_count_cx :
    parseFile exLined4 = some exRecord4 ∧
    exRecord4.profilePoints = 5 ∧
    exRecord4.JumpDataInt.length = 10 ∧
    coreLengths exRecord4.JumpDataInt exRecord4.GroundLeveldPa exRecord4.DeploymentAltitude
      = some (10, 10) ∧
    (10 : Int) ≠ 5 := by
  refine ⟨by decide, rfl, rfl, ?_, by decide⟩
  unfold coreLengths extractCore
  rw [if_pos (by norm_num [IndexExit, exRecord4] : IndexExit < exRecord4.JumpDataInt.length)]
  simp only [Option.map_some', length_AltiMeterListOf, length_SasMeterListOf]
  norm_num [exRecord4]
